import Mathlib

/-!
# Verification of the boss container monitor

A shallow embedding of the `monitor` and `config` packages of the boss
single-node container lifecycle controller, together with proofs about the
reconciler, the shutdown coordinator, the run loop and the label parsing.

Statuses are strings, as in the Go source (`containerd.ProcessStatus` is a
string type).  Calls into the containerd client are modelled by explicit
per-call result values (the environment a pass observes); fallible Go calls
become `Except`, and Go runtime panics become an explicit `GoResult.panic`.
-/

namespace Boss

/-- Go runtime panics that the modelled code can raise. -/
inductive GoPanic where
  | closeOfClosedChannel
  | indexOutOfRange
  deriving DecidableEq, Repr

/-- Result of running a piece of Go code that can panic. -/
inductive GoResult (α : Type) where
  | panic (p : GoPanic)
  | ok (a : α)
  deriving DecidableEq, Repr

/-- `StatusLabel = "io.boss/restart.status"` from the monitor package. -/
def StatusLabel : String := "io.boss/restart.status"

/-- `containerd.Running` (the string value of the containerd process status). -/
def RunningStatus : String := "running"

/-- `containerd.Stopped`. -/
def StoppedStatus : String := "stopped"

/-- `DeleteStatus containerd.ProcessStatus = "delete"`, the custom boss status. -/
def DeleteStatus : String := "delete"

/-- What the runtime reports for one container when the monitor asks for its
task and the task status: `container.Task(ctx, nil)` can fail (a missing task
and any other load error land in the same `err != nil` branch of
`isSameStatus`), and `task.Status(ctx)` can fail or return a status string. -/
inductive TaskQuery where
  | noTask
  | statusError
  | status (s : String)
  deriving DecidableEq, Repr

/-- `isSameStatus` from the monitor package: when the task cannot be loaded or
its status cannot be read, the container counts as stopped; otherwise the
desired status is compared with the reported status string. -/
def isSameStatus (desired : String) (q : TaskQuery) : Bool :=
  match q with
  | .noTask => desired == StoppedStatus
  | .statusError => desired == StoppedStatus
  | .status s => desired == s

/-- The actual status a container collapses to in `isSameStatus`: the reported
task status when the task loads and reports, and `Stopped` otherwise. -/
def actualStatus (q : TaskQuery) : String :=
  match q with
  | .noTask => StoppedStatus
  | .statusError => StoppedStatus
  | .status s => s

/-- One container as one reconcile pass observes it: its id, the result of
`c.Labels(ctx)`, and what loading its task reports. -/
structure ContainerObs where
  id : String
  labelsResult : Except String (List (String × String))
  taskQuery : TaskQuery
  deriving Repr

/-- The `change` variants of the monitor package; each carries the container
it acts on (the Go values also carry the monitor for backend access). -/
inductive change where
  | startChange (id : String)
  | stopChange (id : String)
  | deleteChange (id : String)
  deriving DecidableEq, Repr

/-- Go map lookup `labels[StatusLabel]`: the empty string when absent. -/
def lookupLabel (labels : List (String × String)) (k : String) : String :=
  match labels.find? (fun p => p.1 == k) with
  | some p => p.2
  | none => ""

/-- The per-container body of `Monitor.monitor`: a label-fetch failure is
logged and the container skipped; a container whose desired status matches
its actual status is skipped; otherwise the switch on the desired status
produces the matching change, and any other label value produces nothing. -/
def monitorContainer (c : ContainerObs) : List change :=
  match c.labelsResult with
  | .error _ => []
  | .ok labels =>
    let desiredStatus := lookupLabel labels StatusLabel
    if isSameStatus desiredStatus c.taskQuery then []
    else if desiredStatus == RunningStatus then [.startChange c.id]
    else if desiredStatus == StoppedStatus then [.stopChange c.id]
    else if desiredStatus == DeleteStatus then [.deleteChange c.id]
    else []

/-- `Monitor.monitor`: over the label-filtered container listing (or its
error), collect the changes of every container in order. -/
def monitor (containersResult : Except String (List ContainerObs)) :
    Except String (List change) :=
  match containersResult with
  | .error e => .error e
  | .ok cs => .ok (cs.flatMap monitorContainer)

/-! ## Shutdown coordinator (`Stop`, `Shutdown`, `stopContainers`) -/

/-- `close(m.shutdownCh)`: closing an already closed Go channel panics. -/
def closeChan (closed : Bool) : GoResult Bool :=
  if closed then .panic .closeOfClosedChannel else .ok true

/-- `Monitor.Stop`: closes the shutdown channel.  The argument is whether the
channel is already closed; the result is its state after the call. -/
def Stop (closed : Bool) : GoResult Bool :=
  closeChan closed

/-- What `c.Task(ctx, nil)` reports for a container in `stopContainers`:
not-found errors are skipped silently, other load errors are logged and
skipped, otherwise the task is live. -/
inductive TaskLoad where
  | notFound
  | loadErr
  | live
  deriving DecidableEq, Repr

/-- The environment one container contributes to a shutdown pass: the task
load result, whether `task.Wait` fails, whether `task.Kill` fails, and the
time in seconds until the task exits after the signal (`none` = never). -/
structure StopEnv where
  taskLoad : TaskLoad
  waitErr : Bool
  killErr : Bool
  exitTime : Option Nat
  deriving Repr

/-- The runtime calls one shutdown unit of work performs on its task. -/
inductive TaskAction where
  | sigterm (id : String)
  | deleteTask (id : String)
  deriving DecidableEq, Repr

/-- The fixed deadline (seconds) of `time.After(10 * time.Second)` that one
shutdown unit races against the task's exit. -/
def shutdownTimeout : Nat := 10

/-- The goroutine body launched per container in `stopContainers`: kill the
task with SIGTERM (on error, log and return); then select between the exit
signal and the 10 second timer; on exit in time, delete the task; on
timeout, return with no further action. -/
def stopUnit (id : String) (e : StopEnv) : List TaskAction :=
  .sigterm id ::
    (if e.killErr then []
     else
       match e.exitTime with
       | some t => if t < shutdownTimeout then [.deleteTask id] else []
       | none => [])

/-- Whether `stopContainers` launches a unit of work for a container: only
when the task loads (not-found and errors are skipped) and `task.Wait`
succeeds. -/
def launchesUnit (e : StopEnv) : Bool :=
  match e.taskLoad with
  | .notFound => false
  | .loadErr => false
  | .live => !e.waitErr

/-- `Monitor.stopContainers`: a container listing failure is returned;
otherwise one unit of work runs per container with a live waitable task, and
the wait group joins them all before the function returns, so the result
carries every launched unit's completed actions. -/
def stopContainers (listResult : Except String (List (String × StopEnv))) :
    Except String (List (String × List TaskAction)) :=
  match listResult with
  | .error e => .error e
  | .ok cs =>
      .ok ((cs.filter (fun c => launchesUnit c.2)).map
        (fun c => (c.1, stopUnit c.1 c.2)))

/-- The environment a `Shutdown` call observes: the namespace listing result,
and per namespace its name with the container listing result that
`stopContainers` sees there. -/
def ShutdownEnv : Type :=
  Except String (List (String × Except String (List (String × StopEnv))))

/-- Outcome of a completed `Shutdown` call: the channel is closed and every
namespace whose listing succeeded contributed its units' actions (a failed
`stopContainers` is logged and the namespace skipped). -/
structure ShutdownResult where
  chanClosed : Bool
  stops : List (String × List (String × List TaskAction))
  deriving Repr

/-- `Monitor.Shutdown` (after acquiring the mutex): on a namespace listing
error, log it, close the channel and return; otherwise run `stopContainers`
in every namespace, logging per-namespace failures, then close the channel.
`closedBefore` is whether the shutdown channel was already closed. -/
def Shutdown (closedBefore : Bool) (env : ShutdownEnv) :
    GoResult ShutdownResult :=
  match env with
  | .error _ =>
      match closeChan closedBefore with
      | .panic p => .panic p
      | .ok _ => .ok { chanClosed := true, stops := [] }
  | .ok nss =>
      let stops := nss.filterMap (fun ns =>
        match stopContainers ns.2 with
        | .error _ => none
        | .ok units => some (ns.1, units))
      match closeChan closedBefore with
      | .panic p => .panic p
      | .ok _ => .ok { chanClosed := true, stops := stops }

/-- Whether a `Shutdown` call completed and left the channel closed. -/
def signalsDone (r : GoResult ShutdownResult) : Bool :=
  match r with
  | .panic _ => false
  | .ok res => res.chanClosed

/-! ## The run loop (`Monitor.Run`) -/

/-- The monitor methods one iteration of `Run` can invoke after waking. -/
inductive RunCall where
  | reconcileCall
  | shutdownCall
  deriving DecidableEq, Repr

/-- What one iteration of `Run` did: the calls it made, whether it returned
from the loop, and whether the mutex is still held when the iteration ends. -/
structure IterResult where
  calls : List RunCall
  exits : Bool
  mutexHeldAtEnd : Bool
  deriving DecidableEq, Repr

/-- One iteration of `Run` after `time.Sleep`: take the mutex, select on the
shutdown channel; if it is closed (a stop was requested), log and return —
without calling `Shutdown` and without releasing the mutex; otherwise run
one `reconcile` pass (which applies the changes), release the mutex and go
back to sleep. -/
def runIteration (stopRequested : Bool) : IterResult :=
  if stopRequested then
    { calls := [], exits := true, mutexHeldAtEnd := true }
  else
    { calls := [.reconcileCall], exits := false, mutexHeldAtEnd := false }

/-- `Run`'s interval default: `if interval == 0 { interval = 10 * time.Second }`
(seconds). -/
def runInterval (interval : Nat) : Nat :=
  if interval = 0 then 10 else interval

/-! ## Interleaving of the run loop, `Stop` and `Shutdown`

A small-step model of the two threads that share `Monitor.mu` and
`Monitor.shutdownCh`: the `Run` loop and an external caller of `Shutdown`
(with `Stop` as a third, one-shot event closing the channel).  The program
counters follow the Go control flow literally; in particular the `Run`
thread returns from its shutdown branch without unlocking the mutex. -/

/-- Program counter of the `Run` loop thread. -/
inductive RunPC where
  | sleeping
  | locking
  | checking
  | reconciling
  | done
  deriving DecidableEq, Repr

/-- Program counter of the `Shutdown` caller thread. -/
inductive SdPC where
  | idle
  | locking
  | body
  | done
  deriving DecidableEq, Repr

/-- Who holds `Monitor.mu`. -/
inductive MuOwner where
  | runThread
  | sdThread
  deriving DecidableEq, Repr

/-- A state of the monitor's shared data and both threads. -/
structure Sys where
  run : RunPC
  sd : SdPC
  mu : Option MuOwner
  closed : Bool
  deriving DecidableEq, Repr

/-- The interleaving steps.  `stopClose` is `Stop()` closing the channel;
`runExit` is the `case <-m.shutdownCh:` branch returning while still holding
the mutex; `sdFinish` is `Shutdown` reaching its final `close` and releasing
the mutex via its deferred unlock. -/
inductive Step : Sys → Sys → Prop where
  | stopClose (r : RunPC) (s : SdPC) (m : Option MuOwner) :
      Step ⟨r, s, m, false⟩ ⟨r, s, m, true⟩
  | runWake (s : SdPC) (m : Option MuOwner) (c : Bool) :
      Step ⟨.sleeping, s, m, c⟩ ⟨.locking, s, m, c⟩
  | runLock (s : SdPC) (c : Bool) :
      Step ⟨.locking, s, none, c⟩ ⟨.checking, s, some .runThread, c⟩
  | runExit (s : SdPC) :
      Step ⟨.checking, s, some .runThread, true⟩
        ⟨.done, s, some .runThread, true⟩
  | runReconcile (s : SdPC) :
      Step ⟨.checking, s, some .runThread, false⟩
        ⟨.reconciling, s, some .runThread, false⟩
  | runUnlock (s : SdPC) (c : Bool) :
      Step ⟨.reconciling, s, some .runThread, c⟩ ⟨.sleeping, s, none, c⟩
  | sdCall (r : RunPC) (m : Option MuOwner) (c : Bool) :
      Step ⟨r, .idle, m, c⟩ ⟨r, .locking, m, c⟩
  | sdLock (r : RunPC) (c : Bool) :
      Step ⟨r, .locking, none, c⟩ ⟨r, .body, some .sdThread, c⟩
  | sdFinish (r : RunPC) (c : Bool) :
      Step ⟨r, .body, some .sdThread, c⟩ ⟨r, .done, none, true⟩

/-- Initial state: `Run` asleep between ticks, nobody called `Shutdown`,
mutex free, channel open. -/
def initSys : Sys := ⟨.sleeping, .idle, none, false⟩

/-- States reachable from the initial state. -/
def Reachable (s : Sys) : Prop :=
  Relation.ReflTransGen Step initSys s

/-- The mutex discipline: a thread inside (or, for `Run`, past) its critical
section holds the mutex. -/
def mutexInv (s : Sys) : Prop :=
  (s.run = .checking ∨ s.run = .reconciling ∨ s.run = .done →
    s.mu = some .runThread) ∧
  (s.sd = .body → s.mu = some .sdThread)

theorem mutexInv_init : mutexInv initSys := by
  constructor <;> intro h <;> simp [initSys] at h

theorem mutexInv_step {s s' : Sys} (hs : Step s s') (h : mutexInv s) :
    mutexInv s' := by
  obtain ⟨h1, h2⟩ := h
  cases hs <;> constructor <;> intro hcase <;> simp_all

theorem mutexInv_reachable {s : Sys} (h : Reachable s) : mutexInv s := by
  induction h with
  | refl => exact mutexInv_init
  | tail _ hstep ih => exact mutexInv_step hstep ih

/-- Once `Run` has returned (holding the mutex), every further step keeps it
returned, keeps the mutex owned by the dead `Run` thread, and lets the
`Shutdown` thread progress at most from `idle` to `locking` — never into its
body. -/
def deadlocked (s : Sys) : Prop :=
  s.run = .done ∧ s.mu = some .runThread ∧
    (s.sd = .idle ∨ s.sd = .locking)

theorem deadlocked_step {s s' : Sys} (hs : Step s s') (h : deadlocked s) :
    deadlocked s' := by
  obtain ⟨h1, h2, h3⟩ := h
  cases hs <;> simp_all [deadlocked]

theorem deadlocked_steps {s s' : Sys} (hs : Relation.ReflTransGen Step s s')
    (h : deadlocked s) : deadlocked s' := by
  induction hs with
  | refl => exact h
  | tail _ hstep ih => exact deadlocked_step hstep ih

/-! ## Fan-out of shutdown units inside `stopContainers`

`stopContainers` launches its per-container goroutines in a loop (`go
func...` under `wg.Add(1)`) and only then blocks in `wg.Wait()`; the units
therefore overlap in time.  The model counts units spawned and units
finished: `spawn` is one `go` statement, `finish` is one unit returning, and
the spawning loop never waits for an earlier unit before launching the next. -/

/-- One scheduling step of the fan-out with `n` units to launch, on a state
`(spawned, finished)`. -/
inductive FanStep (n : Nat) : Nat × Nat → Nat × Nat → Prop where
  | spawn (sp fin : Nat) : sp < n → FanStep n (sp, fin) (sp + 1, fin)
  | finish (sp fin : Nat) : fin < sp → FanStep n (sp, fin) (sp, fin + 1)

/-- Reachability of the fan-out model from the start of the launch loop. -/
def FanReach (n : Nat) (p : Nat × Nat) : Prop :=
  Relation.ReflTransGen (FanStep n) (0, 0) p

/-- `wg.Wait` lets `stopContainers` return only once every launched unit has
finished. -/
def fanCanReturn (n : Nat) (p : Nat × Nat) : Prop :=
  p.1 = n ∧ p.2 = n

/-! ## Label parsing in the config package (`toStrings`, `WithBossConfig`)

Label strings are modelled as `List Char`.  `strings.SplitN(s, "=", 2)`
yields the part before the first `'='` and, when a separator exists, the
whole remainder; with no separator it yields the one-element slice `[s]`,
and `parts[1]` then panics with an index-out-of-range error. -/

/-- `strings.SplitN(s, "=", 2)` as (part before the first separator, the
remainder when a separator exists). -/
def splitN2 : List Char → List Char × Option (List Char)
  | [] => ([], none)
  | c :: cs =>
      if c = '=' then ([], some cs)
      else
        let r := splitN2 cs
        (c :: r.1, r.2)

/-- `toStrings` from the config package: builds the label map by assigning
`m[parts[0]] = parts[1]` for each label; a label with no `'='` makes
`parts[1]` panic.  The map is an association list in which the earliest
binding of a key is its final value only for distinct keys; lookups are by
`List.find?`. -/
def toStrings : List (List Char) → GoResult (List (List Char × List Char))
  | [] => .ok []
  | s :: rest =>
      match splitN2 s with
      | (_, none) => .panic .indexOutOfRange
      | (k, some v) =>
          match toStrings rest with
          | .panic p => .panic p
          | .ok m => .ok ((k, v) :: m)

/-- `WithBossConfig`: generate the spec (which may fail with an error), then
set the boss labels via `toStrings` (which may panic), then save the config
as a container extension (which may fail with an error).  The Go value is a
`containerd.NewContainerOpts`; its error results stay errors, while the
`toStrings` panic escapes. -/
def WithBossConfig (specErr : Option String) (labels : List (List Char))
    (extErr : Option String) : GoResult (Except String Unit) :=
  match specErr with
  | some e => .ok (.error e)
  | none =>
      match toStrings labels with
      | .panic p => .panic p
      | .ok _ =>
          match extErr with
          | some e => .ok (.error e)
          | none => .ok (.ok ())

/-! ## Helper lemmas -/

/-- `isSameStatus` is the comparison of the desired status with the actual
status the task query collapses to. -/
theorem isSameStatus_eq (d : String) (q : TaskQuery) :
    isSameStatus d q = (d == actualStatus q) := by
  cases q <;> rfl

/-- Once the `Run` thread has returned, no step revives it. -/
theorem runDone_absorbing {s s' : Sys} (h : s.run = RunPC.done)
    (hs : Step s s') : s'.run = RunPC.done := by
  cases hs <;> simp_all

/-- A string with no separator is returned whole, with no second part. -/
theorem splitN2_no_sep (s : List Char) (h : '=' ∉ s) :
    splitN2 s = (s, none) := by
  induction s with
  | nil => rfl
  | cons c cs ih =>
      simp only [List.mem_cons, not_or] at h
      have hc : ¬(c = '=') := fun hh => h.1 hh.symm
      simp [splitN2, hc, ih h.2]

/-- `splitN2` splits at the first separator: everything after it, further
separators included, lands in the second part. -/
theorem splitN2_first (k v : List Char) (h : '=' ∉ k) :
    splitN2 (k ++ '=' :: v) = (k, some v) := by
  induction k with
  | nil => simp [splitN2]
  | cons c cs ih =>
      simp only [List.mem_cons, not_or] at h
      have hc : ¬(c = '=') := fun hh => h.1 hh.symm
      simp [splitN2, hc, ih h.2]

/-- Any label list containing a separator-free string makes `toStrings`
panic with an index-out-of-range error. -/
theorem toStrings_panics (ls : List (List Char)) (s : List Char)
    (hmem : s ∈ ls) (h : '=' ∉ s) :
    toStrings ls = GoResult.panic GoPanic.indexOutOfRange := by
  induction ls with
  | nil => cases hmem
  | cons a rest ih =>
      rcases List.mem_cons.mp hmem with h1 | h1
      · subst h1
        simp [toStrings, splitN2_no_sep s h]
      · cases hsa : splitN2 a with
        | mk k vo =>
          cases vo with
          | none => simp [toStrings, hsa]
          | some v => simp [toStrings, hsa, ih h1]

/-! ## Claim theorems -/

/-- C4: for every container carrying the desired-status label whose actual
status differs from its desired status, the reconciler constructs exactly
the matching change variant — desired `running` yields a start change,
desired `stopped` a stop change, desired `delete` a delete change — and a
container whose label value is any other string produces no change. -/
theorem C4_matching_change_variant (i : String)
    (labels : List (String × String)) (q : TaskQuery) :
    (isSameStatus (lookupLabel labels StatusLabel) q = false →
      (lookupLabel labels StatusLabel = RunningStatus →
        monitorContainer ⟨i, Except.ok labels, q⟩ = [change.startChange i]) ∧
      (lookupLabel labels StatusLabel = StoppedStatus →
        monitorContainer ⟨i, Except.ok labels, q⟩ = [change.stopChange i]) ∧
      (lookupLabel labels StatusLabel = DeleteStatus →
        monitorContainer ⟨i, Except.ok labels, q⟩ = [change.deleteChange i])) ∧
    (lookupLabel labels StatusLabel ≠ RunningStatus →
      lookupLabel labels StatusLabel ≠ StoppedStatus →
      lookupLabel labels StatusLabel ≠ DeleteStatus →
      monitorContainer ⟨i, Except.ok labels, q⟩ = []) := by
  constructor
  · intro hmis
    refine ⟨?_, ?_, ?_⟩ <;> intro hd <;> rw [hd] at hmis <;>
      simp only [RunningStatus, StoppedStatus, DeleteStatus] at hmis <;>
      simp [monitorContainer, hd, hmis, RunningStatus, StoppedStatus,
        DeleteStatus]
  · intro h1 h2 h3
    by_cases hsame : isSameStatus (lookupLabel labels StatusLabel) q
    · simp [monitorContainer, hsame]
    · simp [monitorContainer, hsame, h1, h2, h3]

/-- C4 witness: a container labelled `running` with no task yields exactly
one start change; a container labelled `paused` yields no change. -/
theorem C4_matching_change_variant_witness :
    monitorContainer ⟨"web1", Except.ok [(StatusLabel, "running")],
        TaskQuery.noTask⟩ = [change.startChange "web1"] ∧
    monitorContainer ⟨"p1", Except.ok [(StatusLabel, "paused")],
        TaskQuery.status "running"⟩ = [] :=
  ⟨((C4_matching_change_variant "web1" [(StatusLabel, "running")]
        TaskQuery.noTask).1 (by decide)).1 (by decide),
    (C4_matching_change_variant "p1" [(StatusLabel, "paused")]
        (TaskQuery.status "running")).2 (by decide) (by decide) (by decide)⟩

/-- C5: a container whose desired status, read fresh from its label, equals
its freshly computed actual status contributes no change to the pass. -/
theorem C5_stable_state_no_change (i : String)
    (labels : List (String × String)) (q : TaskQuery)
    (h : lookupLabel labels StatusLabel = actualStatus q) :
    monitorContainer ⟨i, Except.ok labels, q⟩ = [] := by
  have hs : isSameStatus (lookupLabel labels StatusLabel) q = true := by
    rw [isSameStatus_eq, h]; simp
  simp [monitorContainer, hs]

/-- C5 witness: a container labelled `running` whose task reports `running`
yields no change. -/
theorem C5_stable_state_no_change_witness :
    monitorContainer ⟨"web1", Except.ok [(StatusLabel, "running")],
        TaskQuery.status "running"⟩ = [] :=
  C5_stable_state_no_change "web1" [(StatusLabel, "running")]
    (TaskQuery.status "running") (by decide)

/-- C6 counterexample: a container with no runtime task and the unrecognized
desired label `paused` produces no change, although its desired status is
not `stopped`; so "produces no change exactly when its desired status is
stopped" fails for containers with no task. -/
theorem C6_counterexample :
    monitorContainer ⟨"c1", Except.ok [(StatusLabel, "paused")],
        TaskQuery.noTask⟩ = [] ∧
    lookupLabel [(StatusLabel, "paused")] StatusLabel ≠ StoppedStatus := by
  constructor
  · rfl
  · decide

/-- C6 amended: for every container with no runtime task the comparison uses
actual status `stopped`; among the recognized desired statuses (`running`,
`stopped`, `delete`) such a container produces no change exactly when its
desired status is `stopped`, and a task-less container is never considered
to be in its desired status unless that status is `stopped` (in particular
never `running`). -/
theorem C6_no_task_is_stopped (i : String)
    (labels : List (String × String))
    (hd : lookupLabel labels StatusLabel = RunningStatus ∨
      lookupLabel labels StatusLabel = StoppedStatus ∨
      lookupLabel labels StatusLabel = DeleteStatus) :
    actualStatus TaskQuery.noTask = StoppedStatus ∧
    (monitorContainer ⟨i, Except.ok labels, TaskQuery.noTask⟩ = [] ↔
      lookupLabel labels StatusLabel = StoppedStatus) ∧
    (∀ d : String, isSameStatus d TaskQuery.noTask = true →
      d = StoppedStatus) := by
  refine ⟨rfl, ?_, ?_⟩
  · rcases hd with hd | hd | hd <;>
      simp [monitorContainer, isSameStatus_eq, hd, actualStatus,
        RunningStatus, StoppedStatus, DeleteStatus]
  · intro d h
    rw [isSameStatus_eq] at h
    exact eq_of_beq h

/-- C6 amended witness: with no task and desired `stopped` there is no
change, and the no-change condition coincides with the label being
`stopped`. -/
theorem C6_no_task_is_stopped_witness :
    monitorContainer ⟨"c1", Except.ok [(StatusLabel, "stopped")],
        TaskQuery.noTask⟩ = [] :=
  ((C6_no_task_is_stopped "c1" [(StatusLabel, "stopped")]
      (Or.inr (Or.inl (by decide)))).2.1).mpr (by decide)

/-- C1 counterexample: when a stop has been requested, the iteration of
`Run` that observes it exits the loop but makes no call at all — in
particular it does not call the shutdown coordinator `Shutdown`. -/
theorem C1_counterexample :
    (runIteration true).exits = true ∧
    RunCall.shutdownCall ∉ (runIteration true).calls := by
  decide

/-- C1 amended: when the reconcile loop wakes from its timer with a stop
requested, it exits the loop permanently — without calling the shutdown
coordinator and without releasing the mutex it just acquired; when no stop
has been requested, it performs one reconcile pass (which applies the
resulting changes), releases the mutex and sleeps until the next tick. -/
theorem C1_run_iteration (b : Bool) :
    (runIteration true = ⟨[], true, true⟩ ∧
      runIteration false = ⟨[RunCall.reconcileCall], false, false⟩) ∧
    ((runIteration b).exits = true ↔ b = true) ∧
    (∀ s s' : Sys, s.run = RunPC.done → Step s s' →
      s'.run = RunPC.done) := by
  refine ⟨⟨rfl, rfl⟩, by cases b <;> simp [runIteration], ?_⟩
  intro s s' h hs
  exact runDone_absorbing h hs

/-- C1 amended witness: the exit branch applied at a stopped state, and the
permanence of the exited state under a concrete step. -/
theorem C1_run_iteration_witness :
    (Sys.mk RunPC.done SdPC.idle (some MuOwner.runThread) true).run
      = RunPC.done :=
  (C1_run_iteration true).2.2
    ⟨RunPC.done, SdPC.idle, some MuOwner.runThread, false⟩
    ⟨RunPC.done, SdPC.idle, some MuOwner.runThread, true⟩ rfl
    (Step.stopClose RunPC.done SdPC.idle (some MuOwner.runThread))

/-- C2: from an open shutdown channel, `Shutdown` completes and closes the
channel for every namespace-listing result and every combination of
per-container failures; a loop iteration that then observes the closed
channel exits, and an exited loop stays exited under every step. -/
theorem C2_shutdown_always_signals (env : ShutdownEnv) :
    signalsDone (Shutdown false env) = true ∧
    (runIteration true).exits = true ∧
    (∀ s s' : Sys, s.run = RunPC.done → Step s s' →
      s'.run = RunPC.done) := by
  refine ⟨?_, rfl, fun s s' h hs => runDone_absorbing h hs⟩
  cases env <;> rfl

/-- C2 witness: a shutdown over one namespace whose listing fails and one
whose only container fails every per-container operation still signals
done, and the exited loop stays exited under a concrete step. -/
theorem C2_shutdown_always_signals_witness :
    signalsDone (Shutdown false (Except.ok
      [("default", Except.error "list failed"),
       ("prod", Except.ok [("web1",
          ⟨TaskLoad.live, false, true, none⟩)])])) = true ∧
    (Sys.mk RunPC.done SdPC.idle (some MuOwner.runThread) true).run
      = RunPC.done :=
  ⟨(C2_shutdown_always_signals (Except.ok
      [("default", Except.error "list failed"),
       ("prod", Except.ok [("web1",
          ⟨TaskLoad.live, false, true, none⟩)])])).1,
    (C2_shutdown_always_signals (Except.error "ns")).2.2
      ⟨RunPC.done, SdPC.idle, some MuOwner.runThread, false⟩
      ⟨RunPC.done, SdPC.idle, some MuOwner.runThread, true⟩ rfl
      (Step.stopClose RunPC.done SdPC.idle (some MuOwner.runThread))⟩

/-- C3: each shutdown unit first sends SIGTERM to its task and races the
exit signal against the fixed 10-second deadline: exit within the deadline
reaps (deletes) the task, timeout (or a task that never exits) leaves the
unit with no further action — no forced kill; and `stopContainers` joins
every launched unit, so its result carries each one's completed actions. -/
theorem C3_shutdown_units (i : String) (e : StopEnv) (t : Nat)
    (cs : List (String × StopEnv)) (p : String × StopEnv) :
    shutdownTimeout = 10 ∧
    (stopUnit i e).head? = some (TaskAction.sigterm i) ∧
    (e.killErr = false → e.exitTime = some t → t < shutdownTimeout →
      stopUnit i e = [TaskAction.sigterm i, TaskAction.deleteTask i]) ∧
    (e.killErr = false → e.exitTime = some t → shutdownTimeout ≤ t →
      stopUnit i e = [TaskAction.sigterm i]) ∧
    (e.exitTime = none →
      stopUnit i e = [TaskAction.sigterm i]) ∧
    (p ∈ cs → launchesUnit p.2 = true →
      ∃ l, stopContainers (Except.ok cs) = Except.ok l ∧
        (p.1, stopUnit p.1 p.2) ∈ l) := by
  refine ⟨rfl, ?_, ?_, ?_, ?_, ?_⟩
  · simp [stopUnit]
  · intro hk he ht
    simp [stopUnit, hk, he, ht]
  · intro hk he ht
    simp [stopUnit, hk, he, Nat.not_lt.mpr ht]
  · intro he
    cases hk : e.killErr <;> simp [stopUnit, hk, he]
  · intro hmem hlaunch
    refine ⟨_, rfl, ?_⟩
    exact List.mem_map_of_mem _ (List.mem_filter.mpr ⟨hmem, hlaunch⟩)

/-- C3 witness: a task exiting after 3 seconds is reaped, one that never
exits is abandoned after only the signal, and both units' actions appear in
the coordinator's join. -/
theorem C3_shutdown_units_witness :
    stopUnit "web1" ⟨TaskLoad.live, false, false, some 3⟩ =
      [TaskAction.sigterm "web1", TaskAction.deleteTask "web1"] ∧
    stopUnit "db1" ⟨TaskLoad.live, false, false, none⟩ =
      [TaskAction.sigterm "db1"] ∧
    ∃ l, stopContainers (Except.ok
        [("web1", ⟨TaskLoad.live, false, false, some 3⟩),
         ("db1", ⟨TaskLoad.live, false, false, none⟩)]) = Except.ok l ∧
      ("web1", stopUnit "web1" ⟨TaskLoad.live, false, false, some 3⟩) ∈ l :=
  ⟨(C3_shutdown_units "web1" ⟨TaskLoad.live, false, false, some 3⟩ 3 []
      ("web1", ⟨TaskLoad.live, false, false, some 3⟩)).2.2.1
      rfl rfl (by decide),
   (C3_shutdown_units "db1" ⟨TaskLoad.live, false, false, none⟩ 0 []
      ("db1", ⟨TaskLoad.live, false, false, none⟩)).2.2.2.2.1 rfl,
   (C3_shutdown_units "web1" ⟨TaskLoad.live, false, false, some 3⟩ 3
      [("web1", ⟨TaskLoad.live, false, false, some 3⟩),
       ("db1", ⟨TaskLoad.live, false, false, none⟩)]
      ("web1", ⟨TaskLoad.live, false, false, some 3⟩)).2.2.2.2.2
      (by simp) rfl⟩

/-- C7: in every reachable state, the run loop's reconcile pass and the
shutdown body are never active at the same time (both require the one
mutex); and with at least two live-task containers, the fan-out inside one
shutdown pass reaches a state with two units spawned and none finished —
the per-container stop operations overlap. -/
theorem C7_serialization_and_fanout (s : Sys) (n : Nat)
    (hs : Reachable s) (hn : 2 ≤ n) :
    ¬(s.run = RunPC.reconciling ∧ s.sd = SdPC.body) ∧
    FanReach n (2, 0) := by
  constructor
  · rintro ⟨h1, h2⟩
    have hinv := mutexInv_reachable hs
    have ha := hinv.1 (Or.inr (Or.inl h1))
    have hb := hinv.2 h2
    rw [ha] at hb
    simp at hb
  · exact Relation.ReflTransGen.tail
      (Relation.ReflTransGen.tail Relation.ReflTransGen.refl
        (FanStep.spawn 0 0 (by omega)))
      (FanStep.spawn 1 0 (by omega))

/-- C7 witness: the exclusion applied at a concrete reachable state (the
initial one), and the overlap of two units with exactly two containers. -/
theorem C7_serialization_and_fanout_witness :
    ¬(initSys.run = RunPC.reconciling ∧ initSys.sd = SdPC.body) ∧
    FanReach 2 (2, 0) :=
  ⟨(C7_serialization_and_fanout initSys 2 Relation.ReflTransGen.refl
      (by decide)).1,
   (C7_serialization_and_fanout initSys 2 Relation.ReflTransGen.refl
      (by decide)).2⟩

/-- A concrete execution: `Stop` closes the channel, `Run` wakes, locks,
observes the closed channel and returns — still holding the mutex. -/
def sysAfterExit : Sys := ⟨RunPC.done, SdPC.idle, some MuOwner.runThread, true⟩

theorem sysAfterExit_reachable : Reachable sysAfterExit :=
  Relation.ReflTransGen.tail
    (Relation.ReflTransGen.tail
      (Relation.ReflTransGen.tail
        (Relation.ReflTransGen.tail Relation.ReflTransGen.refl
          (Step.stopClose RunPC.sleeping SdPC.idle none))
        (Step.runWake SdPC.idle none true))
      (Step.runLock SdPC.idle true))
    (Step.runExit SdPC.idle)

/-- C8: once `Run` has returned through its shutdown branch, the mutex stays
owned by the returned run thread in every later state, and a `Shutdown`
caller that has not yet entered its body (idle, or already blocked on the
lock) never gets past the lock — it blocks forever. -/
theorem C8_exit_keeps_mutex (s s' : Sys) (hreach : Reachable s)
    (hdone : s.run = RunPC.done)
    (hsd : s.sd = SdPC.idle ∨ s.sd = SdPC.locking)
    (hsteps : Relation.ReflTransGen Step s s') :
    s'.mu = some MuOwner.runThread ∧
    (s'.sd = SdPC.idle ∨ s'.sd = SdPC.locking) := by
  have hinv := mutexInv_reachable hreach
  have hmu : s.mu = some MuOwner.runThread :=
    hinv.1 (Or.inr (Or.inr hdone))
  have hd : deadlocked s := ⟨hdone, hmu, hsd⟩
  have hd' := deadlocked_steps hsteps hd
  exact ⟨hd'.2.1, hd'.2.2⟩

/-- C8 witness: applied at the concrete state reached after `Stop` and the
loop's exit, with an empty continuation. -/
theorem C8_exit_keeps_mutex_witness :
    sysAfterExit.mu = some MuOwner.runThread ∧
    (sysAfterExit.sd = SdPC.idle ∨ sysAfterExit.sd = SdPC.locking) :=
  C8_exit_keeps_mutex sysAfterExit sysAfterExit sysAfterExit_reachable rfl
    (Or.inl rfl) Relation.ReflTransGen.refl

/-- C9: the shutdown channel cannot be closed twice without a panic: after
`Stop` has closed it, a `Shutdown` that runs to its final close panics (for
every environment), a second `Stop` panics, and after a completed first
`Shutdown` (which closes the channel in every environment) a second one
panics as well. -/
theorem C9_double_close_panics (env env2 : ShutdownEnv) :
    Stop false = GoResult.ok true ∧
    Stop true = GoResult.panic GoPanic.closeOfClosedChannel ∧
    signalsDone (Shutdown false env) = true ∧
    Shutdown true env2 = GoResult.panic GoPanic.closeOfClosedChannel := by
  refine ⟨rfl, rfl, ?_, ?_⟩ <;> first
    | (cases env <;> rfl)
    | (cases env2 <;> rfl)

/-- C10: a container configuration whose labels contain a string with no
separator makes `toStrings` — and hence `WithBossConfig` once spec
generation has succeeded — panic with an index-out-of-range error instead
of returning an error; a label `key=value` maps the key to everything after
the first separator. -/
theorem C10_label_parsing (ls : List (List Char)) (s k v : List Char)
    (extErr : Option String) :
    (s ∈ ls → '=' ∉ s →
      toStrings ls = GoResult.panic GoPanic.indexOutOfRange ∧
      WithBossConfig none ls extErr =
        GoResult.panic GoPanic.indexOutOfRange) ∧
    ('=' ∉ k →
      splitN2 (k ++ '=' :: v) = (k, some v) ∧
      toStrings [k ++ '=' :: v] = GoResult.ok [(k, v)]) := by
  constructor
  · intro hmem hsep
    have hp := toStrings_panics ls s hmem hsep
    exact ⟨hp, by simp [WithBossConfig, hp]⟩
  · intro hk
    have hsplit := splitN2_first k v hk
    exact ⟨hsplit, by simp [toStrings, hsplit]⟩

/-- C10 witness: the label `foo` (no separator) panics the build, and the
label `a=b=c` maps `a` to `b=c`. -/
theorem C10_label_parsing_witness :
    toStrings [['f', 'o', 'o']] =
      GoResult.panic GoPanic.indexOutOfRange ∧
    toStrings [['a', '=', 'b', '=', 'c']] =
      GoResult.ok [(['a'], ['b', '=', 'c'])] :=
  ⟨((C10_label_parsing [['f', 'o', 'o']] ['f', 'o', 'o'] [] []
      none).1 (by simp) (by decide)).1,
   ((C10_label_parsing [] [] ['a'] ['b', '=', 'c'] none).2
      (by decide)).2⟩

end Boss
